import Mathlib

/-!
Shallow embedding of the audio → mood → color pipeline of `src/index.js`
(the final 8-feature version; the repository's other script files are earlier
variants of the same pipeline).

Modelling conventions:
* A frequency frame (JS `Uint8Array`) is a `List ℕ` whose entries are the
  byte magnitudes (validity: every entry `≤ 255`); out-of-range reads use
  `List.getD _ 0`.
* JS numbers are modelled as exact reals `ℝ` (the spec and its claims speak
  about exact arithmetic).  `Math.log2` is `Real.logb 2`, `Math.sqrt` is
  `Real.sqrt`, `Math.exp`/`Math.log` are `Real.exp`/`Real.log`.
* The extractor's module-level mutable `_state` is made explicit: the step
  function `getAudioFeatures` takes the state and the current clock reading
  (`performance.now()`, in milliseconds, modelled as `ℚ` so list pruning is
  executable) and returns the feature vector together with the new state.
* `getMood` is a pure function; it is stated over an arbitrary linear
  ordered field so that it can be run both on `ℚ` (decidably, for concrete
  evaluations) and on `ℝ` (the feature values).
-/

set_option maxHeartbeats 1000000

namespace AudioPipeline

/-- One entry of the mood → HSL palette (`MOOD_PALETTE` values). -/
structure PaletteEntry where
  hue : ℕ
  saturation : ℕ
  baseLightness : ℕ
  deriving DecidableEq, Repr

/-- The 8 normalized features returned by `getAudioFeatures`. -/
structure Features where
  energy : ℝ
  brightness : ℝ
  tempo : ℝ
  flux : ℝ
  spread : ℝ
  flatness : ℝ
  bassRatio : ℝ
  zcr : ℝ

/-- The extractor's cross-frame state (JS module-level `_state`). -/
structure AudioState where
  prevEnergy : ℝ
  prevSpectrum : Option (List ℕ)
  onsetTimes : List ℚ

/-! ## Feature extractor (`getAudioFeatures`, src/index.js lines 23–139) -/

/-- `totalAmplitude`: `Σ dataArray[i]` for `i = 1 .. N-1` (bin 0 excluded).
The source's local `sum` accumulates the identical value and is used only for
`energy`; we share one definition. -/
noncomputable def totalAmplitude (d : List ℕ) : ℝ :=
  ∑ i ∈ Finset.Ico 1 d.length, (d.getD i 0 : ℝ)

/-- `weightedLogSum`: `Σ log2(i) * dataArray[i]` for `i = 1 .. N-1`. -/
noncomputable def weightedLogSum (d : List ℕ) : ℝ :=
  ∑ i ∈ Finset.Ico 1 d.length, Real.logb 2 i * (d.getD i 0 : ℝ)

/-- `energy = (sum / dataArray.length) / 255`. -/
noncomputable def energy (d : List ℕ) : ℝ :=
  (totalAmplitude d / d.length) / 255

/-- `logCentroid = totalAmplitude > 0 ? weightedLogSum / totalAmplitude : 0`. -/
noncomputable def logCentroid (d : List ℕ) : ℝ :=
  if 0 < totalAmplitude d then weightedLogSum d / totalAmplitude d else 0

/-- `brightness = logCentroid / Math.log2(dataArray.length)`. -/
noncomputable def brightness (d : List ℕ) : ℝ :=
  logCentroid d / Real.logb 2 d.length

/-- `spreadSum`: `Σ (log2(i) - logCentroid)² * dataArray[i]` for `i = 1 .. N-1`. -/
noncomputable def spreadSum (d : List ℕ) : ℝ :=
  ∑ i ∈ Finset.Ico 1 d.length,
    (Real.logb 2 i - logCentroid d) * (Real.logb 2 i - logCentroid d) * (d.getD i 0 : ℝ)

/-- `spread = min(1, ta > 0 ? sqrt(spreadSum / ta) / log2(N) : 0)`. -/
noncomputable def spread (d : List ℕ) : ℝ :=
  min 1 (if 0 < totalAmplitude d
    then Real.sqrt (spreadSum d / totalAmplitude d) / Real.logb 2 d.length
    else 0)

/-- `rawFlux`: half-wave rectified bin differences against the previous frame,
`Σ_{i=0}^{N-1} max(0, dataArray[i] - prev[i])`.  An index beyond the previous
frame's length reads `undefined` in JS, making the difference `NaN`, whose
comparison `> 0` is false, so such bins contribute nothing — hence the guard. -/
noncomputable def rawFlux (prev d : List ℕ) : ℝ :=
  ∑ i ∈ Finset.range d.length,
    if i < prev.length then max 0 ((d.getD i 0 : ℝ) - (prev.getD i 0 : ℝ)) else 0

/-- `flux`: `rawFlux / totalAmplitude` when a previous spectrum exists and the
current total amplitude is positive, else 0.  Note: NOT clamped to 1. -/
noncomputable def flux (prevSpectrum : Option (List ℕ)) (d : List ℕ) : ℝ :=
  match prevSpectrum with
  | some prev => if 0 < totalAmplitude d then rawFlux prev d / totalAmplitude d else 0
  | none => 0

/-- Onset push: `if (delta > 0.12 && energy > 0.15) onsetTimes.push(now)`. -/
noncomputable def pushOnsets (prevEnergy e : ℝ) (times : List ℚ) (now : ℚ) : List ℚ :=
  if 12/100 < e - prevEnergy ∧ 15/100 < e then times ++ [now] else times

/-- Onset pruning: `while (onsetTimes[0] < now - 3000) onsetTimes.shift()`,
i.e. repeatedly drop the head while it is older than the cutoff. -/
def pruneOnsets (times : List ℚ) (now : ℚ) : List ℚ :=
  times.dropWhile (fun t => t < now - 3000)

/-- `totalInterval`: `Σ (onsetTimes[i] - onsetTimes[i-1])` for `i = 1 .. L-1`. -/
def totalInterval (l : List ℚ) : ℚ :=
  ∑ i ∈ Finset.Ico 1 l.length, (l.getD i 0 - l.getD (i-1) 0)

/-- `tempo`: 0 with fewer than two onsets; otherwise
`clamp((60000/avgInterval - 40)/140, 0, 1)`.  When `avgInterval = 0` the JS
division `60000/0` yields `+∞`, which the clamp sends to 1. -/
noncomputable def tempo (l : List ℚ) : ℝ :=
  if 2 ≤ l.length then
    let avgInterval : ℝ := (totalInterval l : ℝ) / ((l.length : ℝ) - 1)
    if avgInterval = 0 then 1
    else max 0 (min 1 ((60000 / avgInterval - 40) / 140))
  else 0

/-- `flatness`: geometric mean over the positive bins (bins `1 .. N-1`)
divided by the arithmetic mean `totalAmplitude / N`, clamped to 1;
0 when the total amplitude is 0. -/
noncomputable def flatness (d : List ℕ) : ℝ :=
  if 0 < totalAmplitude d then
    let nz := (Finset.Ico 1 d.length).filter fun i => 0 < d.getD i 0
    if 0 < nz.card then
      let geometricMean := Real.exp ((∑ i ∈ nz, Real.log (d.getD i 0 : ℝ)) / nz.card)
      let arithmeticMean := totalAmplitude d / d.length
      min 1 (if 0 < arithmeticMean then geometricMean / arithmeticMean else 0)
    else 0
  else 0

/-- `bassEnd = Math.max(1, Math.floor(dataArray.length * 0.10))`
(exact floor of `N/10`, which is `ℕ` division). -/
def bassEnd (d : List ℕ) : ℕ := max 1 (d.length / 10)

/-- `bassSum`: `Σ dataArray[i]` for `i = 0 .. bassEnd-1` (bin 0 included). -/
noncomputable def bassSum (d : List ℕ) : ℝ :=
  ∑ i ∈ Finset.range (bassEnd d), (d.getD i 0 : ℝ)

/-- `bassRatio = ta > 0 ? min(1, bassSum / ta) : 0`. -/
noncomputable def bassRatio (d : List ℕ) : ℝ :=
  if 0 < totalAmplitude d then min 1 (bassSum d / totalAmplitude d) else 0

/-- `zcr`: fraction of adjacent-sample sign changes around the 128 midpoint
over `length - 1` slots; 0 when the time-domain frame is absent or too short. -/
noncomputable def zcr (tdo : Option (List ℕ)) : ℝ :=
  match tdo with
  | some td =>
    if 1 < td.length then
      (((Finset.Ico 1 td.length).filter fun i =>
          (128 ≤ td.getD (i-1) 0 ∧ td.getD i 0 < 128) ∨
          (td.getD (i-1) 0 < 128 ∧ 128 ≤ td.getD i 0)).card : ℝ)
        / ((td.length : ℝ) - 1)
    else 0
  | none => 0

/-- The extractor step (`getAudioFeatures`): computes the feature vector and
the updated cross-frame state.  `now` is the `performance.now()` reading for
this call.  State updates mirror the source exactly: `prevEnergy := energy`,
`prevSpectrum := copy of dataArray` (on every call), and the onset list is
pushed (onset test) then pruned (3000 ms window); `tempo` is computed from the
pruned list. -/
noncomputable def getAudioFeatures (st : AudioState) (now : ℚ)
    (dataArray : List ℕ) (timeDomainArray : Option (List ℕ)) :
    Features × AudioState :=
  let e := energy dataArray
  let onsets := pruneOnsets (pushOnsets st.prevEnergy e st.onsetTimes now) now
  (⟨e, brightness dataArray, tempo onsets, flux st.prevSpectrum dataArray,
    spread dataArray, flatness dataArray, bassRatio dataArray, zcr timeDomainArray⟩,
   ⟨e, some dataArray, onsets⟩)

/-! ## Mood classifier (`getMood`, src/index.js lines 157–322)

Each JS modifier object literal becomes a partial map `String → Option String`;
`map[mood] ?? mood` becomes `(map mood).getD mood`. -/

/-- `loudMap` (volume modifier, very loud). -/
def loudMap : String → Option String
  | "peaceful" => some "uplifting"
  | "serene" => some "excited"
  | "focused" => some "powerful"
  | "uplifting" => some "excited"
  | "melancholic" => some "tense"
  | "tranquil" => some "peaceful"
  | "meditative" => some "serene"
  | "hopeful" => some "uplifting"
  | "somber" => some "melancholic"
  | "contemplative" => some "focused"
  | "brooding" => some "tense"
  | "heavy" => some "powerful"
  | "giddy" => some "excited"
  | _ => none

/-- `quietMap` (volume modifier, very quiet). -/
def quietMap : String → Option String
  | "angry" => some "tense"
  | "powerful" => some "focused"
  | "excited" => some "uplifting"
  | "furious" => some "angry"
  | "intense" => some "powerful"
  | "frantic" => some "tense"
  | "driven" => some "focused"
  | "restless" => some "melancholic"
  | "joyful" => some "peaceful"
  | "playful" => some "peaceful"
  | "euphoric" => some "serene"
  | _ => none

/-- `fastMap` (tempo modifier, fast). -/
def fastMap : String → Option String
  | "melancholic" => some "restless"
  | "peaceful" => some "playful"
  | "serene" => some "joyful"
  | "tense" => some "frantic"
  | "focused" => some "driven"
  | "uplifting" => some "euphoric"
  | "angry" => some "furious"
  | "powerful" => some "intense"
  | "excited" => some "euphoric"
  | _ => none

/-- `slowMap` (tempo modifier, slow). -/
def slowMap : String → Option String
  | "melancholic" => some "somber"
  | "peaceful" => some "tranquil"
  | "serene" => some "meditative"
  | "tense" => some "brooding"
  | "focused" => some "contemplative"
  | "uplifting" => some "hopeful"
  | "angry" => some "smoldering"
  | "powerful" => some "heavy"
  | "excited" => some "giddy"
  | _ => none

/-- `droneMap` (flux modifier, sustained/droning). -/
def droneMap : String → Option String
  | "melancholic" => some "somber"
  | "peaceful" => some "meditative"
  | "serene" => some "meditative"
  | "tense" => some "brooding"
  | "focused" => some "contemplative"
  | "uplifting" => some "hopeful"
  | "angry" => some "smoldering"
  | "powerful" => some "heavy"
  | "excited" => some "giddy"
  | "restless" => some "brooding"
  | "frantic" => some "tense"
  | "driven" => some "focused"
  | "euphoric" => some "serene"
  | "furious" => some "angry"
  | "intense" => some "powerful"
  | _ => none

/-- `wideMap` (spread modifier). -/
def wideMap : String → Option String
  | "focused" => some "powerful"
  | "tense" => some "frantic"
  | "uplifting" => some "excited"
  | "peaceful" => some "uplifting"
  | "melancholic" => some "tense"
  | "contemplative" => some "focused"
  | "tranquil" => some "peaceful"
  | _ => none

/-- `bassMap` (bass modifier). -/
def bassMap : String → Option String
  | "uplifting" => some "focused"
  | "excited" => some "powerful"
  | "joyful" => some "driven"
  | "playful" => some "restless"
  | "hopeful" => some "contemplative"
  | "giddy" => some "restless"
  | "euphoric" => some "intense"
  | "serene" => some "peaceful"
  | "tranquil" => some "somber"
  | _ => none

/-- `noisyMap` (noise modifier). -/
def noisyMap : String → Option String
  | "peaceful" => some "restless"
  | "serene" => some "uplifting"
  | "tranquil" => some "peaceful"
  | "meditative" => some "contemplative"
  | "somber" => some "brooding"
  | "hopeful" => some "focused"
  | "contemplative" => some "tense"
  | _ => none

/-- Base mood from the energy × brightness grid (src/index.js lines 161–186). -/
def baseMood {α : Type} [LinearOrderedField α] (energy brightness : α) : String :=
  if energy < 35/100 then
    if brightness < 38/100 then "melancholic"
    else if brightness < 65/100 then "peaceful"
    else "serene"
  else if energy < 60/100 then
    if brightness < 38/100 then "tense"
    else if brightness < 65/100 then "focused"
    else "uplifting"
  else
    if brightness < 38/100 then "angry"
    else if brightness < 65/100 then "powerful"
    else "excited"

/-- Volume modifier (src/index.js lines 188–222). -/
def applyVolume {α : Type} [LinearOrderedField α] (energy : α) (mood : String) : String :=
  if 80/100 < energy then (loudMap mood).getD mood
  else if energy < 22/100 then (quietMap mood).getD mood
  else mood

/-- Tempo modifier (src/index.js lines 224–252). -/
def applyTempo {α : Type} [LinearOrderedField α] (tempo : α) (mood : String) : String :=
  if 65/100 < tempo then (fastMap mood).getD mood
  else if 0 < tempo ∧ tempo < 25/100 then (slowMap mood).getD mood
  else mood

/-- Flux modifier (src/index.js lines 254–275). -/
def applyFlux {α : Type} [LinearOrderedField α] (flux energy : α) (mood : String) : String :=
  if flux < 5/100 ∧ 12/100 < energy then (droneMap mood).getD mood else mood

/-- Spread modifier (src/index.js lines 277–289). -/
def applySpread {α : Type} [LinearOrderedField α] (spread energy : α) (mood : String) : String :=
  if 55/100 < spread ∧ 40/100 < energy then (wideMap mood).getD mood else mood

/-- Bass modifier (src/index.js lines 291–305). -/
def applyBass {α : Type} [LinearOrderedField α] (bassRatio energy : α) (mood : String) : String :=
  if 30/100 < bassRatio ∧ 25/100 < energy then (bassMap mood).getD mood else mood

/-- Noise modifier (src/index.js lines 307–319). -/
def applyNoise {α : Type} [LinearOrderedField α] (flatness zcr energy : α) (mood : String) : String :=
  if 70/100 < flatness ∧ 15/100 < zcr ∧ 15/100 < energy then (noisyMap mood).getD mood else mood

/-- `getMood`: silence gate, then the base grid, then the six ordered
modifiers (volume, tempo, flux, spread, bass, noise), each acting on the
previous result (src/index.js lines 157–322). -/
def getMood {α : Type} [LinearOrderedField α]
    (energy brightness tempo flux spread flatness bassRatio zcr : α) : String :=
  if energy < 5/100 then "silent"
  else
    applyNoise flatness zcr energy
      (applyBass bassRatio energy
        (applySpread spread energy
          (applyFlux flux energy
            (applyTempo tempo
              (applyVolume energy (baseMood energy brightness))))))

/-! ## Palette and color mapper (src/index.js lines 326–364) -/

/-- `MOOD_PALETTE`: the static mood → HSL table, as the association list of
the JS object literal (27 entries). -/
def MOOD_PALETTE : List (String × PaletteEntry) :=
  [("silent", ⟨0, 0, 93⟩),
   ("melancholic", ⟨248, 55, 28⟩),
   ("peaceful", ⟨205, 52, 50⟩),
   ("serene", ⟨175, 58, 58⟩),
   ("tense", ⟨22, 78, 36⟩),
   ("focused", ⟨128, 45, 38⟩),
   ("uplifting", ⟨72, 78, 52⟩),
   ("angry", ⟨348, 85, 40⟩),
   ("powerful", ⟨25, 88, 44⟩),
   ("excited", ⟨48, 95, 56⟩),
   ("restless", ⟨35, 82, 45⟩),
   ("playful", ⟨80, 85, 58⟩),
   ("joyful", ⟨55, 90, 62⟩),
   ("frantic", ⟨10, 92, 42⟩),
   ("driven", ⟨150, 65, 42⟩),
   ("euphoric", ⟨300, 90, 58⟩),
   ("furious", ⟨0, 100, 30⟩),
   ("intense", ⟨20, 95, 38⟩),
   ("somber", ⟨230, 60, 20⟩),
   ("tranquil", ⟨200, 35, 65⟩),
   ("meditative", ⟨185, 40, 45⟩),
   ("brooding", ⟨270, 50, 25⟩),
   ("contemplative", ⟨250, 40, 40⟩),
   ("hopeful", ⟨45, 65, 55⟩),
   ("smoldering", ⟨10, 70, 25⟩),
   ("heavy", ⟨30, 60, 28⟩),
   ("giddy", ⟨320, 75, 60⟩)]

/-- The palette's `focused` entry, the fallback of `moodToColor`. -/
def focusedEntry : PaletteEntry := ⟨128, 45, 38⟩

/-- The HSL components of the color string `hsl(H, S%, L%)` that
`moodToColor` renders (hue and saturation verbatim from the palette entry,
lightness rounded to an integer). -/
structure HSL where
  hue : ℕ
  saturation : ℕ
  lightness : ℤ
  deriving DecidableEq, Repr

/-- `moodToColor`: palette lookup with fallback `MOOD_PALETTE.focused`, then
`lightness = Math.round(min(85, max(10, baseLightness + (energy-0.5)*30)))`
(`round x = ⌊x + 1/2⌋`, exactly JS `Math.round` on these values). -/
noncomputable def moodToColor (mood : String) (energy : ℝ) : HSL :=
  let base := (MOOD_PALETTE.lookup mood).getD focusedEntry
  let lightness := min 85 (max 10 ((base.baseLightness : ℝ) + (energy - 1/2) * 30))
  ⟨base.hue, base.saturation, round lightness⟩

/-- The mood vocabulary: exactly the keys of `MOOD_PALETTE` (27 labels). -/
def moodVocab : List String := MOOD_PALETTE.map Prod.fst

/-- The 26 non-silent labels: `moodVocab` without `"silent"`. -/
def nonSilentMoods : List String := moodVocab.tail

/-! ## Closure of the modifier chain over the vocabulary -/

lemma silent_not_mem_nonSilent : "silent" ∉ nonSilentMoods := by decide

lemma nonSilent_subset_vocab : ∀ m ∈ nonSilentMoods, m ∈ moodVocab := by decide

lemma loudMap_closed : ∀ m ∈ nonSilentMoods, (loudMap m).getD m ∈ nonSilentMoods := by decide

lemma quietMap_closed : ∀ m ∈ nonSilentMoods, (quietMap m).getD m ∈ nonSilentMoods := by decide

lemma fastMap_closed : ∀ m ∈ nonSilentMoods, (fastMap m).getD m ∈ nonSilentMoods := by decide

lemma slowMap_closed : ∀ m ∈ nonSilentMoods, (slowMap m).getD m ∈ nonSilentMoods := by decide

lemma droneMap_closed : ∀ m ∈ nonSilentMoods, (droneMap m).getD m ∈ nonSilentMoods := by decide

lemma wideMap_closed : ∀ m ∈ nonSilentMoods, (wideMap m).getD m ∈ nonSilentMoods := by decide

lemma bassMap_closed : ∀ m ∈ nonSilentMoods, (bassMap m).getD m ∈ nonSilentMoods := by decide

lemma noisyMap_closed : ∀ m ∈ nonSilentMoods, (noisyMap m).getD m ∈ nonSilentMoods := by decide

lemma baseMood_mem {α : Type} [LinearOrderedField α] (e b : α) :
    baseMood e b ∈ nonSilentMoods := by
  unfold baseMood; split_ifs <;> decide

lemma applyVolume_mem {α : Type} [LinearOrderedField α] (e : α) {m : String}
    (hm : m ∈ nonSilentMoods) : applyVolume e m ∈ nonSilentMoods := by
  unfold applyVolume; split_ifs
  · exact loudMap_closed m hm
  · exact quietMap_closed m hm
  · exact hm

lemma applyTempo_mem {α : Type} [LinearOrderedField α] (t : α) {m : String}
    (hm : m ∈ nonSilentMoods) : applyTempo t m ∈ nonSilentMoods := by
  unfold applyTempo; split_ifs
  · exact fastMap_closed m hm
  · exact slowMap_closed m hm
  · exact hm

lemma applyFlux_mem {α : Type} [LinearOrderedField α] (fx e : α) {m : String}
    (hm : m ∈ nonSilentMoods) : applyFlux fx e m ∈ nonSilentMoods := by
  unfold applyFlux; split_ifs
  · exact droneMap_closed m hm
  · exact hm

lemma applySpread_mem {α : Type} [LinearOrderedField α] (s e : α) {m : String}
    (hm : m ∈ nonSilentMoods) : applySpread s e m ∈ nonSilentMoods := by
  unfold applySpread; split_ifs
  · exact wideMap_closed m hm
  · exact hm

lemma applyBass_mem {α : Type} [LinearOrderedField α] (br e : α) {m : String}
    (hm : m ∈ nonSilentMoods) : applyBass br e m ∈ nonSilentMoods := by
  unfold applyBass; split_ifs
  · exact bassMap_closed m hm
  · exact hm

lemma applyNoise_mem {α : Type} [LinearOrderedField α] (fl z e : α) {m : String}
    (hm : m ∈ nonSilentMoods) : applyNoise fl z e m ∈ nonSilentMoods := by
  unfold applyNoise; split_ifs
  · exact noisyMap_closed m hm
  · exact hm

/-- Past the silence gate, the classifier's result is one of the 26
non-silent labels. -/
lemma getMood_mem_nonSilent {α : Type} [LinearOrderedField α]
    {e : α} (b t fx s fl br z : α) (he : ¬ e < 5/100) :
    getMood e b t fx s fl br z ∈ nonSilentMoods := by
  unfold getMood
  rw [if_neg he]
  exact applyNoise_mem _ _ _ (applyBass_mem _ _ (applySpread_mem _ _
    (applyFlux_mem _ _ (applyTempo_mem _ (applyVolume_mem _ (baseMood_mem e b))))))

lemma getMood_ne_silent {α : Type} [LinearOrderedField α]
    {e : α} (b t fx s fl br z : α) (he : ¬ e < 5/100) :
    getMood e b t fx s fl br z ≠ "silent" := by
  intro h
  exact silent_not_mem_nonSilent (h ▸ getMood_mem_nonSilent b t fx s fl br z he)

lemma lookup_isSome_of_vocab : ∀ m ∈ moodVocab, (MOOD_PALETTE.lookup m).isSome := by decide

/-! ## Claim C2 -/

/-- C2: `getMood` returns `"silent"` exactly when `energy < 0.05` (strict):
energy exactly `0.05` is non-silent, `0.349999` selects the low energy band
(base mood `"peaceful"` at mid brightness, with all modifiers inactive) while
exactly `0.35` selects the mid band (`"focused"`). -/
theorem silence_gate_strict_boundaries :
    (∀ (α : Type) [LinearOrderedField α] (e b t fx s fl br z : α),
        getMood e b t fx s fl br z = "silent" ↔ e < 5/100)
    ∧ getMood (1/20 : ℚ) (1/2) (1/2) (1/2) 0 0 0 0 ≠ "silent"
    ∧ getMood (349999/1000000 : ℚ) (1/2) (1/2) (1/2) 0 0 0 0 = "peaceful"
    ∧ getMood (35/100 : ℚ) (1/2) (1/2) (1/2) 0 0 0 0 = "focused" := by
  refine ⟨?_, ?_, ?_, ?_⟩
  · intro α _ e b t fx s fl br z
    constructor
    · intro h
      by_contra he
      exact getMood_ne_silent b t fx s fl br z he h
    · intro he
      unfold getMood
      rw [if_pos he]
  · have h : getMood (1/20 : ℚ) (1/2) (1/2) (1/2) 0 0 0 0 = "peaceful" := by
      norm_num [getMood, baseMood, applyVolume, applyTempo, applyFlux, applySpread,
        applyBass, applyNoise]
      rfl
    rw [h]
    decide
  · norm_num [getMood, baseMood, applyVolume, applyTempo, applyFlux, applySpread,
      applyBass, applyNoise]
  · norm_num [getMood, baseMood, applyVolume, applyTempo, applyFlux, applySpread,
      applyBass, applyNoise]

/-! ## Claim C3 -/

/-- C3 (counterexample to the stated vocabulary size): the fixed mood
vocabulary — the key set of `MOOD_PALETTE` — has 27 distinct values, not 30. -/
theorem moodVocab_has_27_not_30 :
    moodVocab.Nodup ∧ moodVocab.length = 27 ∧ ¬ moodVocab.length = 30 := by
  decide

/-- C3 (amended): for every 8-tuple of feature inputs the label returned by
`getMood` is a member of the fixed closed vocabulary of 27 values (the keys of
`MOOD_PALETTE`: 9 base moods, `"silent"`, and 17 modifier variants), and is
always a key present in `MOOD_PALETTE`, so the defensive palette fallback is
never needed for classifier output. -/
theorem getMood_mem_closed_vocabulary {α : Type} [LinearOrderedField α]
    (e b t fx s fl br z : α) :
    getMood e b t fx s fl br z ∈ moodVocab ∧
      (MOOD_PALETTE.lookup (getMood e b t fx s fl br z)).isSome := by
  have hmem : getMood e b t fx s fl br z ∈ moodVocab := by
    by_cases he : e < 5/100
    · unfold getMood
      rw [if_pos he]
      decide
    · exact nonSilent_subset_vocab _ (getMood_mem_nonSilent b t fx s fl br z he)
  exact ⟨hmem, lookup_isSome_of_vocab _ hmem⟩

/-! ## Claim C8 -/

/-- C8: `getMood` is a pure, deterministic function of its 8 arguments (it is
defined without reference to any cross-frame state, mirroring the source,
which reads and writes no `_state` field in `getMood`): two calls with
identical 8-tuples return the identical mood label. -/
theorem getMood_deterministic :
    ∀ (α : Type) [LinearOrderedField α]
      (e b t fx s fl br z e' b' t' fx' s' fl' br' z' : α),
      e = e' → b = b' → t = t' → fx = fx' → s = s' → fl = fl' → br = br' → z = z' →
      getMood e b t fx s fl br z = getMood e' b' t' fx' s' fl' br' z' := by
  intro α _ e b t fx s fl br z e' b' t' fx' s' fl' br' z' he hb ht hfx hs hfl hbr hz
  subst he hb ht hfx hs hfl hbr hz
  rfl

/-- Witness for C8 at a concrete 8-tuple. -/
theorem getMood_deterministic_witness :
    getMood (1/2 : ℚ) (1/2) 0 0 0 0 0 0 = getMood (1/2 : ℚ) (1/2) 0 0 0 0 0 0 :=
  getMood_deterministic ℚ (1/2) (1/2) 0 0 0 0 0 0 (1/2) (1/2) 0 0 0 0 0 0
    rfl rfl rfl rfl rfl rfl rfl rfl

/-! ## Color mapper lemmas -/

lemma vocab_eq_silent_cons : moodVocab = "silent" :: nonSilentMoods := by rfl

/-- When the selected palette entry's base lightness already lies in the
clamp interval `[10, 85]`, `moodToColor` at energy `1/2` reproduces it. -/
lemma moodToColor_half_lightness (m : String)
    (h10 : 10 ≤ ((MOOD_PALETTE.lookup m).getD focusedEntry).baseLightness)
    (h85 : ((MOOD_PALETTE.lookup m).getD focusedEntry).baseLightness ≤ 85) :
    (moodToColor m (1/2)).lightness =
      (((MOOD_PALETTE.lookup m).getD focusedEntry).baseLightness : ℤ) := by
  unfold moodToColor
  dsimp only
  have hx : ((((MOOD_PALETTE.lookup m).getD focusedEntry).baseLightness : ℝ)
      + ((1:ℝ)/2 - 1/2) * 30)
      = (((MOOD_PALETTE.lookup m).getD focusedEntry).baseLightness : ℝ) := by ring
  rw [hx, max_eq_right (by exact_mod_cast h10), min_eq_right (by exact_mod_cast h85),
    round_natCast]

/-- The rounded clamped lightness always lands in `[10, 85]`. -/
lemma round_clamp_mem (y : ℝ) :
    10 ≤ round (min 85 (max 10 y)) ∧ round (min 85 (max 10 y)) ≤ 85 := by
  have h10 : (10:ℝ) ≤ min 85 (max 10 y) := le_min (by norm_num) (le_max_left _ _)
  have h85 : min (85:ℝ) (max 10 y) ≤ 85 := min_le_left _ _
  constructor
  · rw [round_eq]
    exact Int.le_floor.mpr (by push_cast; linarith)
  · have h : round (min (85:ℝ) (max 10 y)) < 86 := by
      rw [round_eq]
      exact Int.floor_lt.mpr (by push_cast; linarith)
    omega

/-! ## Claim C4 -/

/-- C4 (counterexample): `moodToColor("silent", 0.5)` has lightness 85, not
the palette's `baseLightness` 93 for `"silent"` — the clamp to `[10, 85]`
lowers it.  So the claimed round-trip fails at the vocabulary mood
`"silent"`. -/
theorem moodToColor_silent_lightness_ne_base :
    (moodToColor "silent" (1/2)).lightness = 85 ∧
    ((MOOD_PALETTE.lookup "silent").getD focusedEntry).baseLightness = 93 ∧
    ¬ ((moodToColor "silent" (1/2)).lightness =
        (((MOOD_PALETTE.lookup "silent").getD focusedEntry).baseLightness : ℤ)) := by
  have hl : MOOD_PALETTE.lookup "silent" = some ⟨0, 0, 93⟩ := by rfl
  have h85 : (moodToColor "silent" (1/2)).lightness = 85 := by
    unfold moodToColor
    rw [hl]
    dsimp only [Option.getD_some]
    have h1 : ((93:ℕ):ℝ) + ((1:ℝ)/2 - 1/2) * 30 = 93 := by norm_num
    rw [h1, max_eq_right (by norm_num), min_eq_left (by norm_num), round_eq,
      show (85:ℝ) + 1/2 = 171/2 by norm_num, Int.floor_eq_iff]
    norm_num
  refine ⟨h85, by rw [hl]; rfl, ?_⟩
  rw [h85, hl]
  decide

/-- C4 (amended): for every mood in the fixed vocabulary other than
`"silent"` (whose `baseLightness` 93 exceeds the lightness cap 85),
`moodToColor(mood, 0.5)` returns a color whose lightness equals that mood's
`baseLightness` from the palette; for `"silent"` the lightness is the cap 85. -/
theorem moodToColor_half_energy_base_lightness (mood : String)
    (hmem : mood ∈ moodVocab) (hns : mood ≠ "silent") :
    (moodToColor mood (1/2)).lightness =
      (((MOOD_PALETTE.lookup mood).getD focusedEntry).baseLightness : ℤ) := by
  have hmem' : mood ∈ nonSilentMoods := by
    rcases List.mem_cons.mp (vocab_eq_silent_cons ▸ hmem) with h | h
    · exact absurd h hns
    · exact h
  have hb : ∀ m ∈ nonSilentMoods,
      10 ≤ ((MOOD_PALETTE.lookup m).getD focusedEntry).baseLightness ∧
      ((MOOD_PALETTE.lookup m).getD focusedEntry).baseLightness ≤ 85 := by decide
  exact moodToColor_half_lightness mood (hb mood hmem').1 (hb mood hmem').2

/-- Witness for the amended C4 at the mood `"peaceful"`. -/
theorem moodToColor_half_energy_base_lightness_witness :
    (moodToColor "peaceful" (1/2)).lightness =
      (((MOOD_PALETTE.lookup "peaceful").getD focusedEntry).baseLightness : ℤ) :=
  moodToColor_half_energy_base_lightness "peaceful" (by decide) (by decide)

/-! ## Claim C10 -/

/-- C10: `moodToColor` is total and range-bounded beyond its stated
precondition: for every mood string (labels absent from the palette fall back
to the `focused` entry, which is what `(MOOD_PALETTE.lookup mood).getD
focusedEntry` selects) and every real energy value, the returned color's hue
and saturation are copied verbatim from the selected palette entry and its
lightness is an integer clamped to `[10, 85]`.  (`moodToColor` renders these
three components as the string `hsl(H, S%, L%)`.) -/
theorem moodToColor_total_and_clamped (mood : String) (energy : ℝ) :
    (moodToColor mood energy).hue =
      ((MOOD_PALETTE.lookup mood).getD focusedEntry).hue ∧
    (moodToColor mood energy).saturation =
      ((MOOD_PALETTE.lookup mood).getD focusedEntry).saturation ∧
    10 ≤ (moodToColor mood energy).lightness ∧
    (moodToColor mood energy).lightness ≤ 85 := by
  unfold moodToColor
  dsimp only
  exact ⟨rfl, rfl, (round_clamp_mem _).1, (round_clamp_mem _).2⟩

/-! ## Extractor lemmas -/

lemma getD_replicate_zero (N i : ℕ) : (List.replicate N 0).getD i 0 = 0 := by
  rw [List.getD_eq_getElem?_getD, List.getElem?_getD_replicate_default_eq]

lemma totalAmplitude_nonneg (d : List ℕ) : 0 ≤ totalAmplitude d :=
  Finset.sum_nonneg fun _ _ => Nat.cast_nonneg _

lemma totalAmplitude_replicate (N : ℕ) : totalAmplitude (List.replicate N 0) = 0 := by
  unfold totalAmplitude
  exact Finset.sum_eq_zero fun i _ => by rw [getD_replicate_zero]; norm_num

lemma energy_replicate (N : ℕ) : energy (List.replicate N 0) = 0 := by
  unfold energy
  rw [totalAmplitude_replicate]
  simp

lemma brightness_replicate (N : ℕ) : brightness (List.replicate N 0) = 0 := by
  unfold brightness logCentroid
  rw [totalAmplitude_replicate]
  simp

lemma flatness_replicate (N : ℕ) : flatness (List.replicate N 0) = 0 := by
  unfold flatness
  rw [totalAmplitude_replicate]
  simp

lemma bassRatio_replicate (N : ℕ) : bassRatio (List.replicate N 0) = 0 := by
  unfold bassRatio
  rw [totalAmplitude_replicate]
  simp

/-- A frame compared against itself produces zero raw flux. -/
lemma rawFlux_self (d : List ℕ) : rawFlux d d = 0 :=
  Finset.sum_eq_zero fun i _ => by
    rw [if_pos (by simpa using Finset.mem_range.mp ‹i ∈ Finset.range d.length›)]
    simp

lemma flux_self (d : List ℕ) : flux (some d) d = 0 := by
  show (if 0 < totalAmplitude d then rawFlux d d / totalAmplitude d else 0) = 0
  rw [rawFlux_self]
  split_ifs <;> simp

/-- The silence gate alone fixes the classifier output at low energy. -/
lemma getMood_eq_silent_of_lt {α : Type} [LinearOrderedField α]
    {e : α} (b t fx s fl br z : α) (he : e < 5/100) :
    getMood e b t fx s fl br z = "silent" := by
  unfold getMood
  rw [if_pos he]

/-! ## Claim C5 -/

/-- C5: for an all-zero frequency frame of any valid length `N ≥ 2` (and any
extractor state, clock reading and optional time-domain frame),
`getAudioFeatures` returns `energy = 0`, `brightness = 0`, `flatness = 0`
and `bassRatio = 0` — the embedding is total, so no exception can occur —
and feeding the resulting features to `getMood` yields `"silent"`. -/
theorem zero_frame_features_zero_and_silent (st : AudioState) (now : ℚ) (N : ℕ)
    (tdo : Option (List ℕ)) (_hN : 2 ≤ N) :
    (getAudioFeatures st now (List.replicate N 0) tdo).1.energy = 0 ∧
    (getAudioFeatures st now (List.replicate N 0) tdo).1.brightness = 0 ∧
    (getAudioFeatures st now (List.replicate N 0) tdo).1.flatness = 0 ∧
    (getAudioFeatures st now (List.replicate N 0) tdo).1.bassRatio = 0 ∧
    getMood (getAudioFeatures st now (List.replicate N 0) tdo).1.energy
      (getAudioFeatures st now (List.replicate N 0) tdo).1.brightness
      (getAudioFeatures st now (List.replicate N 0) tdo).1.tempo
      (getAudioFeatures st now (List.replicate N 0) tdo).1.flux
      (getAudioFeatures st now (List.replicate N 0) tdo).1.spread
      (getAudioFeatures st now (List.replicate N 0) tdo).1.flatness
      (getAudioFeatures st now (List.replicate N 0) tdo).1.bassRatio
      (getAudioFeatures st now (List.replicate N 0) tdo).1.zcr = "silent" := by
  have he : (getAudioFeatures st now (List.replicate N 0) tdo).1.energy = 0 :=
    energy_replicate N
  refine ⟨he, brightness_replicate N, flatness_replicate N, bassRatio_replicate N, ?_⟩
  exact getMood_eq_silent_of_lt _ _ _ _ _ _ _ (by rw [he]; norm_num)

/-- Witness for C5 at `N = 4` and a fresh state. -/
theorem zero_frame_features_zero_and_silent_witness :
    (getAudioFeatures ⟨0, none, []⟩ 0 (List.replicate 4 0) none).1.energy = 0 ∧
    (getAudioFeatures ⟨0, none, []⟩ 0 (List.replicate 4 0) none).1.brightness = 0 ∧
    (getAudioFeatures ⟨0, none, []⟩ 0 (List.replicate 4 0) none).1.flatness = 0 ∧
    (getAudioFeatures ⟨0, none, []⟩ 0 (List.replicate 4 0) none).1.bassRatio = 0 ∧
    getMood (getAudioFeatures ⟨0, none, []⟩ 0 (List.replicate 4 0) none).1.energy
      (getAudioFeatures ⟨0, none, []⟩ 0 (List.replicate 4 0) none).1.brightness
      (getAudioFeatures ⟨0, none, []⟩ 0 (List.replicate 4 0) none).1.tempo
      (getAudioFeatures ⟨0, none, []⟩ 0 (List.replicate 4 0) none).1.flux
      (getAudioFeatures ⟨0, none, []⟩ 0 (List.replicate 4 0) none).1.spread
      (getAudioFeatures ⟨0, none, []⟩ 0 (List.replicate 4 0) none).1.flatness
      (getAudioFeatures ⟨0, none, []⟩ 0 (List.replicate 4 0) none).1.bassRatio
      (getAudioFeatures ⟨0, none, []⟩ 0 (List.replicate 4 0) none).1.zcr = "silent" :=
  zero_frame_features_zero_and_silent ⟨0, none, []⟩ 0 4 none (by norm_num)

/-! ## Claim C6 -/

/-- C6: flux is 0 on the very first extractor call (no previous spectrum);
the current frame is copied into the history on every call, including the
first; and a second call with the identical frame (and no time frame)
yields flux 0 and the identical energy and brightness values. -/
theorem flux_first_zero_and_steady_state (st : AudioState) (now₁ now₂ : ℚ)
    (d : List ℕ) (hprev : st.prevSpectrum = none) :
    (getAudioFeatures st now₁ d none).1.flux = 0 ∧
    (∀ (st' : AudioState) (now : ℚ) (d' : List ℕ) (tdo : Option (List ℕ)),
        (getAudioFeatures st' now d' tdo).2.prevSpectrum = some d') ∧
    (getAudioFeatures (getAudioFeatures st now₁ d none).2 now₂ d none).1.flux = 0 ∧
    (getAudioFeatures (getAudioFeatures st now₁ d none).2 now₂ d none).1.energy =
      (getAudioFeatures st now₁ d none).1.energy ∧
    (getAudioFeatures (getAudioFeatures st now₁ d none).2 now₂ d none).1.brightness =
      (getAudioFeatures st now₁ d none).1.brightness := by
  refine ⟨?_, fun _ _ _ _ => rfl, ?_, rfl, rfl⟩
  · show flux st.prevSpectrum d = 0
    rw [hprev]
    rfl
  · exact flux_self d

/-- Witness for C6 on a concrete fresh state and frame. -/
theorem flux_first_zero_and_steady_state_witness :
    (getAudioFeatures ⟨0, none, []⟩ 0 [0, 10, 20, 30] none).1.flux = 0 ∧
    (∀ (st' : AudioState) (now : ℚ) (d' : List ℕ) (tdo : Option (List ℕ)),
        (getAudioFeatures st' now d' tdo).2.prevSpectrum = some d') ∧
    (getAudioFeatures (getAudioFeatures ⟨0, none, []⟩ 0 [0, 10, 20, 30] none).2 16
        [0, 10, 20, 30] none).1.flux = 0 ∧
    (getAudioFeatures (getAudioFeatures ⟨0, none, []⟩ 0 [0, 10, 20, 30] none).2 16
        [0, 10, 20, 30] none).1.energy =
      (getAudioFeatures ⟨0, none, []⟩ 0 [0, 10, 20, 30] none).1.energy ∧
    (getAudioFeatures (getAudioFeatures ⟨0, none, []⟩ 0 [0, 10, 20, 30] none).2 16
        [0, 10, 20, 30] none).1.brightness =
      (getAudioFeatures ⟨0, none, []⟩ 0 [0, 10, 20, 30] none).1.brightness :=
  flux_first_zero_and_steady_state ⟨0, none, []⟩ 0 16 [0, 10, 20, 30] rfl

/-! ## Onset-list lemmas (for C9) -/

lemma pushOnsets_pairwise {l : List ℚ} {now : ℚ} (pe e : ℝ)
    (hs : l.Pairwise (· ≤ ·)) (hp : ∀ t ∈ l, t ≤ now) :
    (pushOnsets pe e l now).Pairwise (· ≤ ·) := by
  unfold pushOnsets
  split_ifs
  · rw [List.pairwise_append]
    refine ⟨hs, List.pairwise_singleton _ _, fun x hx y hy => ?_⟩
    rw [List.mem_singleton] at hy
    exact hy ▸ hp x hx
  · exact hs

lemma pushOnsets_le {l : List ℚ} {now : ℚ} (pe e : ℝ) (hp : ∀ t ∈ l, t ≤ now) :
    ∀ t ∈ pushOnsets pe e l now, t ≤ now := by
  unfold pushOnsets
  split_ifs
  · intro t ht
    rcases List.mem_append.mp ht with h | h
    · exact hp t h
    · rw [List.mem_singleton] at h
      exact h ▸ le_refl now
  · exact hp

/-- In a sorted list, dropping the head while it is below the cutoff leaves
only entries at or above the cutoff. -/
lemma mem_dropWhile_lt_ge {c : ℚ} : ∀ {l : List ℚ}, l.Pairwise (· ≤ ·) →
    ∀ t ∈ l.dropWhile (fun t => t < c), c ≤ t := by
  intro l
  induction l with
  | nil => intro _ t ht; simp [List.dropWhile] at ht
  | cons a l ih =>
    intro hs t ht
    rw [List.dropWhile_cons] at ht
    by_cases ha : a < c
    · rw [if_pos (by simpa using ha)] at ht
      exact ih (List.Pairwise.of_cons hs) t ht
    · rw [if_neg (by simpa using ha)] at ht
      rcases List.mem_cons.mp ht with rfl | htl
      · exact le_of_not_lt ha
      · exact le_trans (le_of_not_lt ha) ((List.pairwise_cons.mp hs).1 t htl)

/-! ## Feature bounds (for C1) -/

lemma getD_le_255 {d : List ℕ} (hv : ∀ v ∈ d, v ≤ 255) (i : ℕ) : d.getD i 0 ≤ 255 := by
  rcases Nat.lt_or_ge i d.length with h | h
  · rw [List.getD_eq_getElem _ _ h]
    exact hv _ (List.getElem_mem h)
  · rw [List.getD_eq_default _ _ h]
    exact Nat.zero_le _

lemma length_ge_two_of_ta_pos {d : List ℕ} (h : 0 < totalAmplitude d) : 2 ≤ d.length := by
  by_contra hlt
  push_neg at hlt
  have he : Finset.Ico 1 d.length = ∅ := Finset.Ico_eq_empty (by omega)
  unfold totalAmplitude at h
  rw [he, Finset.sum_empty] at h
  exact lt_irrefl 0 h

lemma totalAmplitude_le_mul_length {d : List ℕ} (hv : ∀ v ∈ d, v ≤ 255) :
    totalAmplitude d ≤ 255 * d.length := by
  unfold totalAmplitude
  calc ∑ i ∈ Finset.Ico 1 d.length, (d.getD i 0 : ℝ)
      ≤ ∑ _i ∈ Finset.Ico 1 d.length, (255 : ℝ) :=
        Finset.sum_le_sum fun i _ => by exact_mod_cast getD_le_255 hv i
    _ = ((Finset.Ico 1 d.length).card : ℝ) * 255 := by rw [Finset.sum_const, nsmul_eq_mul]
    _ ≤ (d.length : ℝ) * 255 := by
        have hc : (Finset.Ico 1 d.length).card ≤ d.length := by rw [Nat.card_Ico]; omega
        exact mul_le_mul_of_nonneg_right (by exact_mod_cast hc) (by norm_num)
    _ = 255 * d.length := by ring

lemma energy_nonneg (d : List ℕ) : 0 ≤ energy d :=
  div_nonneg (div_nonneg (totalAmplitude_nonneg d) (Nat.cast_nonneg _)) (by norm_num)

lemma energy_le_one {d : List ℕ} (hv : ∀ v ∈ d, v ≤ 255) : energy d ≤ 1 := by
  unfold energy
  rcases Nat.eq_zero_or_pos d.length with h0 | hpos
  · rw [h0]
    norm_num
  · have hN : (0:ℝ) < d.length := by exact_mod_cast hpos
    rw [div_le_one (by norm_num : (0:ℝ) < 255), div_le_iff₀ hN]
    calc totalAmplitude d ≤ 255 * d.length := totalAmplitude_le_mul_length hv
    _ = 255 * (d.length : ℝ) := rfl

lemma weightedLogSum_nonneg (d : List ℕ) : 0 ≤ weightedLogSum d :=
  Finset.sum_nonneg fun i hi =>
    mul_nonneg
      (Real.logb_nonneg one_lt_two (by exact_mod_cast (Finset.mem_Ico.mp hi).1))
      (Nat.cast_nonneg _)

lemma weightedLogSum_le (d : List ℕ) :
    weightedLogSum d ≤ Real.logb 2 d.length * totalAmplitude d := by
  unfold weightedLogSum totalAmplitude
  rw [Finset.mul_sum]
  apply Finset.sum_le_sum
  intro i hi
  apply mul_le_mul_of_nonneg_right _ (Nat.cast_nonneg _)
  have h1 : 1 ≤ i := (Finset.mem_Ico.mp hi).1
  apply Real.logb_le_logb_of_le one_lt_two (by exact_mod_cast h1)
  exact_mod_cast le_of_lt (Finset.mem_Ico.mp hi).2

lemma logCentroid_nonneg (d : List ℕ) : 0 ≤ logCentroid d := by
  unfold logCentroid
  split_ifs with h
  · exact div_nonneg (weightedLogSum_nonneg d) (le_of_lt h)
  · exact le_refl 0

lemma logCentroid_le {d : List ℕ} (h : 0 < totalAmplitude d) :
    logCentroid d ≤ Real.logb 2 d.length := by
  unfold logCentroid
  rw [if_pos h, div_le_iff₀ h]
  exact weightedLogSum_le d

lemma one_le_cast_length {d : List ℕ} (h : 2 ≤ d.length) : (1:ℝ) ≤ d.length := by
  exact_mod_cast Nat.one_le_of_lt h

lemma one_lt_cast_length {d : List ℕ} (h : 2 ≤ d.length) : (1:ℝ) < d.length := by
  exact_mod_cast h

lemma brightness_nonneg (d : List ℕ) : 0 ≤ brightness d := by
  unfold brightness
  rcases lt_or_le 0 (totalAmplitude d) with h | h
  · exact div_nonneg (logCentroid_nonneg d)
      (Real.logb_nonneg one_lt_two (one_le_cast_length (length_ge_two_of_ta_pos h)))
  · unfold logCentroid
    rw [if_neg (not_lt.mpr h), zero_div]

lemma brightness_le_one (d : List ℕ) : brightness d ≤ 1 := by
  unfold brightness
  rcases lt_or_le 0 (totalAmplitude d) with h | h
  · have hlog : 0 < Real.logb 2 d.length :=
      Real.logb_pos one_lt_two (one_lt_cast_length (length_ge_two_of_ta_pos h))
    rw [div_le_one hlog]
    exact logCentroid_le h
  · unfold logCentroid
    rw [if_neg (not_lt.mpr h), zero_div]
    exact zero_le_one

lemma spread_nonneg (d : List ℕ) : 0 ≤ spread d := by
  unfold spread
  apply le_min zero_le_one
  split_ifs with h
  · exact div_nonneg (Real.sqrt_nonneg _)
      (Real.logb_nonneg one_lt_two (one_le_cast_length (length_ge_two_of_ta_pos h)))
  · exact le_refl 0

lemma spread_le_one (d : List ℕ) : spread d ≤ 1 := min_le_left _ _

lemma tempo_nonneg (l : List ℚ) : 0 ≤ tempo l := by
  unfold tempo
  dsimp only
  split_ifs
  · exact zero_le_one
  · exact le_max_left _ _
  · exact le_refl 0

lemma tempo_le_one (l : List ℚ) : tempo l ≤ 1 := by
  unfold tempo
  dsimp only
  split_ifs
  · exact le_refl 1
  · exact max_le zero_le_one (min_le_left _ _)
  · exact zero_le_one

lemma rawFlux_nonneg (prev d : List ℕ) : 0 ≤ rawFlux prev d :=
  Finset.sum_nonneg fun i _ => by
    split_ifs
    · exact le_max_left _ _
    · exact le_refl 0

lemma flux_nonneg (ps : Option (List ℕ)) (d : List ℕ) : 0 ≤ flux ps d := by
  cases ps with
  | none => exact le_refl 0
  | some prev =>
    show 0 ≤ if 0 < totalAmplitude d then rawFlux prev d / totalAmplitude d else 0
    split_ifs with h
    · exact div_nonneg (rawFlux_nonneg prev d) (le_of_lt h)
    · exact le_refl 0

lemma rawFlux_le_ta {prev d : List ℕ} (hdc : d.getD 0 0 ≤ prev.getD 0 0)
    (hN : 0 < d.length) : rawFlux prev d ≤ totalAmplitude d := by
  unfold rawFlux totalAmplitude
  rw [Finset.range_eq_Ico, Finset.sum_eq_sum_Ico_succ_bot hN]
  have h0 : (if 0 < prev.length
      then max 0 ((d.getD 0 0 : ℝ) - (prev.getD 0 0 : ℝ)) else 0) = 0 := by
    split_ifs
    · apply max_eq_left
      have hc : (d.getD 0 0 : ℝ) ≤ (prev.getD 0 0 : ℝ) := by exact_mod_cast hdc
      linarith
    · rfl
  rw [h0, zero_add]
  apply Finset.sum_le_sum
  intro i _
  split_ifs
  · apply max_le (Nat.cast_nonneg _)
    have hp : (0:ℝ) ≤ (prev.getD i 0 : ℝ) := Nat.cast_nonneg _
    linarith
  · exact Nat.cast_nonneg _

lemma flux_le_one_of_dc {prev d : List ℕ} (hdc : d.getD 0 0 ≤ prev.getD 0 0) :
    flux (some prev) d ≤ 1 := by
  show (if 0 < totalAmplitude d then rawFlux prev d / totalAmplitude d else 0) ≤ 1
  split_ifs with h
  · rw [div_le_one h]
    exact rawFlux_le_ta hdc (by have := length_ge_two_of_ta_pos h; omega)
  · exact zero_le_one

lemma flatness_nonneg (d : List ℕ) : 0 ≤ flatness d := by
  unfold flatness
  dsimp only
  split_ifs with h1 h2 h3
  · exact le_min zero_le_one (div_nonneg (Real.exp_pos _).le (le_of_lt h3))
  · exact le_min zero_le_one (le_refl 0)
  · exact le_refl 0
  · exact le_refl 0

lemma flatness_le_one (d : List ℕ) : flatness d ≤ 1 := by
  unfold flatness
  dsimp only
  split_ifs
  · exact min_le_left _ _
  · exact min_le_left _ _
  · exact zero_le_one
  · exact zero_le_one

lemma bassSum_nonneg (d : List ℕ) : 0 ≤ bassSum d :=
  Finset.sum_nonneg fun _ _ => Nat.cast_nonneg _

lemma bassRatio_nonneg (d : List ℕ) : 0 ≤ bassRatio d := by
  unfold bassRatio
  split_ifs with h
  · exact le_min zero_le_one (div_nonneg (bassSum_nonneg d) (le_of_lt h))
  · exact le_refl 0

lemma bassRatio_le_one (d : List ℕ) : bassRatio d ≤ 1 := by
  unfold bassRatio
  split_ifs
  · exact min_le_left _ _
  · exact zero_le_one

lemma zcr_nonneg (tdo : Option (List ℕ)) : 0 ≤ zcr tdo := by
  cases tdo with
  | none => exact le_refl 0
  | some td =>
    show 0 ≤ if 1 < td.length then _ else (0:ℝ)
    split_ifs with h
    · apply div_nonneg (Nat.cast_nonneg _)
      have hc : (1:ℝ) ≤ td.length := by exact_mod_cast h.le
      linarith
    · exact le_refl 0

lemma zcr_le_one (tdo : Option (List ℕ)) : zcr tdo ≤ 1 := by
  cases tdo with
  | none => exact zero_le_one
  | some td =>
    show (if 1 < td.length then _ else (0:ℝ)) ≤ 1
    split_ifs with h
    · have hpos : (0:ℝ) < (td.length : ℝ) - 1 := by
        have hc : (1:ℝ) < td.length := by exact_mod_cast h
        linarith
      rw [div_le_one hpos]
      calc ((((Finset.Ico 1 td.length).filter fun i =>
              (128 ≤ td.getD (i-1) 0 ∧ td.getD i 0 < 128) ∨
              (td.getD (i-1) 0 < 128 ∧ 128 ≤ td.getD i 0)).card : ℕ) : ℝ)
          ≤ (((Finset.Ico 1 td.length).card : ℕ) : ℝ) := by
            exact_mod_cast Finset.card_filter_le _ _
        _ = (((td.length - 1 : ℕ)) : ℝ) := by rw [Nat.card_Ico]
        _ = (td.length : ℝ) - 1 := by
            rw [Nat.cast_sub (by omega)]
            norm_num
    · exact zero_le_one

/-! ## Concrete-frame evaluation helpers -/

lemma ico_one_four : Finset.Ico 1 4 = ({1, 2, 3} : Finset ℕ) := by decide

lemma range_four : Finset.range 4 = ({0, 1, 2, 3} : Finset ℕ) := by decide

lemma sum_Ico_one_four (f : ℕ → ℝ) : ∑ i ∈ Finset.Ico 1 4, f i = f 1 + f 2 + f 3 := by
  rw [ico_one_four, Finset.sum_insert (by decide), Finset.sum_insert (by decide),
    Finset.sum_singleton]
  ring

lemma sum_range_four (f : ℕ → ℝ) :
    ∑ i ∈ Finset.range 4, f i = f 0 + f 1 + f 2 + f 3 := by
  rw [range_four, Finset.sum_insert (by decide), Finset.sum_insert (by decide),
    Finset.sum_insert (by decide), Finset.sum_singleton]
  ring

lemma ta_ce : totalAmplitude [255, 1, 0, 0] = 1 := by
  show ∑ i ∈ Finset.Ico 1 (4:ℕ), (([255, 1, 0, 0] : List ℕ).getD i 0 : ℝ) = 1
  rw [sum_Ico_one_four]
  norm_num [List.getD]

lemma raw_ce : rawFlux [0, 1, 0, 0] [255, 1, 0, 0] = 255 := by
  show ∑ i ∈ Finset.range (4:ℕ), (if i < ([0, 1, 0, 0] : List ℕ).length
      then max 0 ((([255, 1, 0, 0] : List ℕ).getD i 0 : ℝ)
        - (([0, 1, 0, 0] : List ℕ).getD i 0 : ℝ))
      else 0) = 255
  rw [sum_range_four]
  norm_num [List.getD]

/-! ## Claim C1 -/

/-- C1 (counterexample): two successive frequency frames of valid shape
(length 4, values ≤ 255) for which the second call's flux is 255, far above
1: the flux numerator includes bin 0 (`rawFlux` sums from index 0) while the
normalizing `totalAmplitude` excludes bin 0, so a jump in the DC bin is not
compensated.  First frame `[0, 1, 0, 0]`, second frame `[255, 1, 0, 0]`. -/
theorem flux_unbounded_counterexample :
    (getAudioFeatures (getAudioFeatures ⟨0, none, []⟩ 0 [0, 1, 0, 0] none).2
        16 [255, 1, 0, 0] none).1.flux = 255 ∧
    ¬ ((getAudioFeatures (getAudioFeatures ⟨0, none, []⟩ 0 [0, 1, 0, 0] none).2
        16 [255, 1, 0, 0] none).1.flux ≤ 1) := by
  have h : (getAudioFeatures (getAudioFeatures ⟨0, none, []⟩ 0 [0, 1, 0, 0] none).2
      16 [255, 1, 0, 0] none).1.flux = 255 := by
    show (if 0 < totalAmplitude [255, 1, 0, 0]
        then rawFlux [0, 1, 0, 0] [255, 1, 0, 0] / totalAmplitude [255, 1, 0, 0]
        else 0) = 255
    rw [ta_ce, raw_ce]
    norm_num
  exact ⟨h, by rw [h]; norm_num⟩

/-- C1 (amended): for every frequency frame of valid shape (length ≥ 2,
values ≤ 255), any optional time-domain frame and any extractor state, the
features `energy`, `brightness`, `tempo`, `spread`, `flatness`, `bassRatio`
and `zcr` returned by `getAudioFeatures` all lie in `[0, 1]`, and `flux` is
nonnegative; `flux` additionally lies in `[0, 1]` whenever the stored
previous frame's bin-0 magnitude is at least the current frame's bin-0
magnitude (in particular for frames whose DC bin is non-increasing) — but not
in general, since bin 0 enters the flux numerator and not the normalizer. -/
theorem features_in_unit_interval_except_flux (st : AudioState) (now : ℚ)
    (d : List ℕ) (tdo : Option (List ℕ)) (f : Features)
    (hf : f = (getAudioFeatures st now d tdo).1)
    (_hN : 2 ≤ d.length) (hv : ∀ v ∈ d, v ≤ 255) :
    (0 ≤ f.energy ∧ f.energy ≤ 1) ∧
    (0 ≤ f.brightness ∧ f.brightness ≤ 1) ∧
    (0 ≤ f.tempo ∧ f.tempo ≤ 1) ∧
    (0 ≤ f.spread ∧ f.spread ≤ 1) ∧
    (0 ≤ f.flatness ∧ f.flatness ≤ 1) ∧
    (0 ≤ f.bassRatio ∧ f.bassRatio ≤ 1) ∧
    (0 ≤ f.zcr ∧ f.zcr ≤ 1) ∧
    0 ≤ f.flux ∧
    ((∀ prev, st.prevSpectrum = some prev → d.getD 0 0 ≤ prev.getD 0 0) →
      f.flux ≤ 1) := by
  subst hf
  refine ⟨⟨energy_nonneg d, energy_le_one hv⟩,
    ⟨brightness_nonneg d, brightness_le_one d⟩,
    ⟨tempo_nonneg _, tempo_le_one _⟩,
    ⟨spread_nonneg d, spread_le_one d⟩,
    ⟨flatness_nonneg d, flatness_le_one d⟩,
    ⟨bassRatio_nonneg d, bassRatio_le_one d⟩,
    ⟨zcr_nonneg tdo, zcr_le_one tdo⟩,
    flux_nonneg _ d, ?_⟩
  intro hdc
  show flux st.prevSpectrum d ≤ 1
  cases hps : st.prevSpectrum with
  | none => exact zero_le_one
  | some prev => exact flux_le_one_of_dc (hdc prev hps)

/-- Witness for the amended C1 at a concrete frame and fresh state. -/
theorem features_in_unit_interval_except_flux_witness :
    (0 ≤ (getAudioFeatures ⟨0, none, []⟩ 0 [0, 1, 0, 0] none).1.energy ∧
      (getAudioFeatures ⟨0, none, []⟩ 0 [0, 1, 0, 0] none).1.energy ≤ 1) ∧
    (0 ≤ (getAudioFeatures ⟨0, none, []⟩ 0 [0, 1, 0, 0] none).1.brightness ∧
      (getAudioFeatures ⟨0, none, []⟩ 0 [0, 1, 0, 0] none).1.brightness ≤ 1) ∧
    (0 ≤ (getAudioFeatures ⟨0, none, []⟩ 0 [0, 1, 0, 0] none).1.tempo ∧
      (getAudioFeatures ⟨0, none, []⟩ 0 [0, 1, 0, 0] none).1.tempo ≤ 1) ∧
    (0 ≤ (getAudioFeatures ⟨0, none, []⟩ 0 [0, 1, 0, 0] none).1.spread ∧
      (getAudioFeatures ⟨0, none, []⟩ 0 [0, 1, 0, 0] none).1.spread ≤ 1) ∧
    (0 ≤ (getAudioFeatures ⟨0, none, []⟩ 0 [0, 1, 0, 0] none).1.flatness ∧
      (getAudioFeatures ⟨0, none, []⟩ 0 [0, 1, 0, 0] none).1.flatness ≤ 1) ∧
    (0 ≤ (getAudioFeatures ⟨0, none, []⟩ 0 [0, 1, 0, 0] none).1.bassRatio ∧
      (getAudioFeatures ⟨0, none, []⟩ 0 [0, 1, 0, 0] none).1.bassRatio ≤ 1) ∧
    (0 ≤ (getAudioFeatures ⟨0, none, []⟩ 0 [0, 1, 0, 0] none).1.zcr ∧
      (getAudioFeatures ⟨0, none, []⟩ 0 [0, 1, 0, 0] none).1.zcr ≤ 1) ∧
    0 ≤ (getAudioFeatures ⟨0, none, []⟩ 0 [0, 1, 0, 0] none).1.flux ∧
    ((∀ prev, (⟨0, none, []⟩ : AudioState).prevSpectrum = some prev →
        ([0, 1, 0, 0] : List ℕ).getD 0 0 ≤ prev.getD 0 0) →
      (getAudioFeatures ⟨0, none, []⟩ 0 [0, 1, 0, 0] none).1.flux ≤ 1) :=
  features_in_unit_interval_except_flux ⟨0, none, []⟩ 0 [0, 1, 0, 0] none
    ((getAudioFeatures ⟨0, none, []⟩ 0 [0, 1, 0, 0] none).1) rfl
    (by norm_num) (by decide)

/-! ## Claim C9 -/

/-- C9: provided the clock is monotone (every stored onset timestamp is at
most the current call time) and the stored list is sorted ascending, then
after a `getAudioFeatures` call the onset-timestamp list is again sorted
ascending, contains no timestamp older than `now − 3000` ms and none newer
than `now`, and is a suffix of the pushed list — i.e. pruning removed the
oldest entries first. -/
theorem onset_list_sorted_and_windowed (st : AudioState) (now : ℚ) (d : List ℕ)
    (tdo : Option (List ℕ))
    (hsorted : st.onsetTimes.Pairwise (· ≤ ·))
    (hpast : ∀ t ∈ st.onsetTimes, t ≤ now) :
    (getAudioFeatures st now d tdo).2.onsetTimes.Pairwise (· ≤ ·) ∧
    (∀ t ∈ (getAudioFeatures st now d tdo).2.onsetTimes, now - 3000 ≤ t) ∧
    (∀ t ∈ (getAudioFeatures st now d tdo).2.onsetTimes, t ≤ now) ∧
    (getAudioFeatures st now d tdo).2.onsetTimes
      <:+ pushOnsets st.prevEnergy (energy d) st.onsetTimes now := by
  have hpush : (pushOnsets st.prevEnergy (energy d) st.onsetTimes now).Pairwise (· ≤ ·) :=
    pushOnsets_pairwise _ _ hsorted hpast
  have hpushle : ∀ t ∈ pushOnsets st.prevEnergy (energy d) st.onsetTimes now, t ≤ now :=
    pushOnsets_le _ _ hpast
  have hout : (getAudioFeatures st now d tdo).2.onsetTimes =
      pruneOnsets (pushOnsets st.prevEnergy (energy d) st.onsetTimes now) now := rfl
  rw [hout]
  refine ⟨hpush.sublist (List.dropWhile_sublist _), ?_, ?_, List.dropWhile_suffix _⟩
  · exact mem_dropWhile_lt_ge hpush
  · intro t ht
    exact hpushle t ((List.dropWhile_sublist _).mem ht)

/-- Witness for C9 at a concrete state where pruning drops exactly the
oldest entry. -/
theorem onset_list_sorted_and_windowed_witness :
    (getAudioFeatures ⟨0, none, [100, 200]⟩ 3200 [0, 0, 0, 0] none).2.onsetTimes.Pairwise
        (· ≤ ·) ∧
    (∀ t ∈ (getAudioFeatures ⟨0, none, [100, 200]⟩ 3200 [0, 0, 0, 0] none).2.onsetTimes,
        (3200 : ℚ) - 3000 ≤ t) ∧
    (∀ t ∈ (getAudioFeatures ⟨0, none, [100, 200]⟩ 3200 [0, 0, 0, 0] none).2.onsetTimes,
        t ≤ 3200) ∧
    (getAudioFeatures ⟨0, none, [100, 200]⟩ 3200 [0, 0, 0, 0] none).2.onsetTimes
      <:+ pushOnsets (0 : ℝ) (energy [0, 0, 0, 0]) [100, 200] 3200 :=
  onset_list_sorted_and_windowed ⟨0, none, [100, 200]⟩ 3200 [0, 0, 0, 0] none
    (by decide) (by decide)

/-! ## Claim C7 -/

/-- Behaviour of the `tempo` computation on an arbitrary onset list. -/
lemma tempo_spec (l : List ℚ) :
    (l.length < 2 → tempo l = 0) ∧
    (2 ≤ l.length → 0 < (totalInterval l : ℝ) / ((l.length : ℝ) - 1) →
      (tempo l = max 0 (min 1
          ((60000 / ((totalInterval l : ℝ) / ((l.length : ℝ) - 1)) - 40) / 140)) ∧
       (60000 / ((totalInterval l : ℝ) / ((l.length : ℝ) - 1)) ≤ 40 → tempo l = 0) ∧
       (180 ≤ 60000 / ((totalInterval l : ℝ) / ((l.length : ℝ) - 1)) →
          tempo l = 1))) := by
  constructor
  · intro hlt
    unfold tempo
    rw [if_neg (by omega)]
  · intro hlen hpos
    have hne : ¬ ((totalInterval l : ℝ) / ((l.length : ℝ) - 1) = 0) := ne_of_gt hpos
    have htempo : tempo l = max 0 (min 1
        ((60000 / ((totalInterval l : ℝ) / ((l.length : ℝ) - 1)) - 40) / 140)) := by
      unfold tempo
      rw [if_pos hlen]
      dsimp only
      rw [if_neg hne]
    refine ⟨htempo, ?_, ?_⟩
    · intro h40
      rw [htempo]
      have hx : (60000 / ((totalInterval l : ℝ) / ((l.length : ℝ) - 1)) - 40) / 140 ≤ 0 := by
        linarith
      rw [min_eq_right (by linarith), max_eq_left hx]
    · intro h180
      rw [htempo]
      have hx : (1:ℝ) ≤ (60000 / ((totalInterval l : ℝ) / ((l.length : ℝ) - 1)) - 40) / 140 := by
        linarith
      rw [min_eq_left hx, max_eq_right zero_le_one]

/-- C7: after pruning, if fewer than 2 onset timestamps remain (`L` is the
onset list stored in the post-call state, which is exactly the pruned list
`tempo` reads) then `tempo = 0`; otherwise, whenever the average inter-onset
interval `avg` is positive, `tempo = clamp((60000/avg − 40)/140, 0, 1)`, an
average rate `60000/avg ≤ 40` BPM gives `tempo = 0`, and a rate `≥ 180` BPM
gives `tempo = 1`.  (When `avg = 0`, JS `60000/0 = +∞` clamps to 1 — see
`tempo`'s definition.) -/
theorem tempo_formula (st : AudioState) (now : ℚ) (d : List ℕ)
    (tdo : Option (List ℕ)) (L : List ℚ) (avg : ℝ)
    (hL : L = (getAudioFeatures st now d tdo).2.onsetTimes)
    (havg : avg = (totalInterval L : ℝ) / ((L.length : ℝ) - 1)) :
    (L.length < 2 → (getAudioFeatures st now d tdo).1.tempo = 0) ∧
    (2 ≤ L.length → 0 < avg →
      ((getAudioFeatures st now d tdo).1.tempo =
          max 0 (min 1 ((60000 / avg - 40) / 140)) ∧
       (60000 / avg ≤ 40 → (getAudioFeatures st now d tdo).1.tempo = 0) ∧
       (180 ≤ 60000 / avg → (getAudioFeatures st now d tdo).1.tempo = 1))) := by
  subst havg
  have hT : (getAudioFeatures st now d tdo).1.tempo = tempo L := by rw [hL]; rfl
  rw [hT]
  exact tempo_spec L

/-- Witness for C7: stored onsets `[1000, 1500]`, call at `now = 2000` with a
zero frame (no new onset, nothing pruned): average interval 500 ms = 120 BPM. -/
theorem tempo_formula_witness :
    (getAudioFeatures ⟨0, none, [1000, 1500]⟩ 2000 (List.replicate 4 0) none).1.tempo =
      max 0 (min 1 ((60000 / (500:ℝ) - 40) / 140)) := by
  have hL : ([1000, 1500] : List ℚ) =
      (getAudioFeatures ⟨0, none, [1000, 1500]⟩ 2000 (List.replicate 4 0) none).2.onsetTimes := by
    show ([1000, 1500] : List ℚ) =
      pruneOnsets (pushOnsets 0 (energy (List.replicate 4 0)) [1000, 1500] 2000) 2000
    rw [energy_replicate]
    unfold pushOnsets
    rw [if_neg (by norm_num)]
    unfold pruneOnsets
    rw [List.dropWhile_cons,
      if_neg (by simp only [decide_eq_true_eq]; norm_num)]
  have htot : totalInterval [1000, 1500] = 500 := by
    show ∑ i ∈ Finset.Ico 1 (2:ℕ),
      (([1000, 1500] : List ℚ).getD i 0 - ([1000, 1500] : List ℚ).getD (i-1) 0) = 500
    rw [show Finset.Ico 1 2 = ({1} : Finset ℕ) from by decide, Finset.sum_singleton]
    norm_num [List.getD]
  have havg : (500:ℝ) =
      (totalInterval [1000, 1500] : ℝ) / ((([1000, 1500] : List ℚ).length : ℝ) - 1) := by
    rw [htot]
    norm_num
  have h := tempo_formula ⟨0, none, [1000, 1500]⟩ 2000 (List.replicate 4 0) none
    [1000, 1500] 500 hL havg
  exact (h.2 (by norm_num) (by norm_num)).1

end AudioPipeline
